import Mathlib

/-!
Shallow embedding of the movie-pass-api backend (Go): the movie service
(`service/movie.go`, shown as `src/unnamed/part_000`), the user service
(`src/service/user.go`) and the domain types they use.

Modelling conventions:
* `uuid.UUID` values are `Nat` (only identity matters to the service logic);
  Go's zero UUID is `0`, `uuid.New()` results are passed in as parameters.
* `time.Time` instants are `Nat` parameters (`now`).
* Image bytes (`[]byte`) are `List Nat`; an uploaded multipart file handle
  (`*multipart.FileHeader`) is an opaque `Nat`.
* Every external collaborator (the GORM repository, the CloudFlare client,
  the bcrypt wrapper, the session service) is an oracle function stored in an
  environment record; a call that can fail in Go returns `Except String _`
  (the `String` is the Go error's message). The service's own control flow is
  translated statement by statement from the source.
* Each service operation additionally returns the list of repository /
  remote-store calls it performed (an `Effect` trace), and the producer
  operations return the queue of tasks that were successfully enqueued, so
  that "no write happened" and "one task per image" claims are statable.
* The movie repository implementation is not among the shown files; where a
  claim needs row-level semantics they are modelled from the spec
  (`CreateMovieImage` persists the row, `DeleteMovieImage` deletes the
  matching row) and marked as such.
-/

namespace MoviePass

/-- `domain.Session`: the session value stored in the request context; the
service only reads its `UserID`. -/
structure Session where
  userID : Nat
deriving Repr, DecidableEq

/-- `domain.IndicativeRating` (the fields the service reads/copies). -/
structure IndicativeRating where
  id : Nat
  description : String
  imageURL : String
deriving Repr, DecidableEq

/-- The Go zero value of `domain.IndicativeRating`, left in place by
`MoviePayload.ToMovie` (which never sets the `IndicativeRating` field). -/
def IndicativeRating.zero : IndicativeRating :=
  { id := 0, description := "", imageURL := "" }

/-- `domain.MovieImage`: a persisted image row (URL + remote-store id). -/
structure MovieImage where
  id : Nat
  movieID : Nat
  imageURL : String
  cloudFlareID : String
deriving Repr, DecidableEq

/-- `domain.Movie` (the fields the movie service reads or writes). -/
structure Movie where
  id : Nat
  indicativeRatingID : Nat
  userID : Nat
  title : String
  duration : Int
  indicativeRating : IndicativeRating
  createdAt : Nat
  images : List MovieImage
deriving Repr, DecidableEq

/-- `domain.MovieImageUploadTask`: movie id + raw bytes + owner id. -/
structure MovieImageUploadTask where
  movieID : Nat
  image : List Nat
  userID : Nat
deriving Repr, DecidableEq

/-- `domain.MovieImageDeleteTask`: carries the remote identifier only. -/
structure MovieImageDeleteTask where
  cloudFlareID : String
deriving Repr, DecidableEq

/-- `domain.MoviePayload` after validation (images are opaque file handles). -/
structure MoviePayload where
  images : List Nat
  indicativeRatingID : Nat
  title : String
  duration : Int
deriving Repr, DecidableEq

/-- `domain.MovieUpdatePayload`: the partial-update payload; a Go nil pointer
is `none`. -/
structure MovieUpdatePayload where
  indicativeRatingID : Option Nat
  title : Option String
  duration : Option Int
deriving Repr, DecidableEq

/-- The CloudFlare upload response: public URL + remote identifier. -/
structure CloudFlareUploadResponse where
  URL : String
  ID : String
deriving Repr, DecidableEq

/-- `domain.User` (the fields the user service reads). -/
structure User where
  id : Nat
  firstName : String
  lastName : String
  email : String
  passwordHash : String
deriving Repr, DecidableEq

/-- `domain.UserPayload` after validation. -/
structure UserPayload where
  firstName : String
  lastName : String
  email : String
  password : String
deriving Repr, DecidableEq

/-- `domain.SignInPayload`. -/
structure SignInPayload where
  email : String
  password : String
deriving Repr, DecidableEq

/-- `domain.SignInResponse`: the opaque session token. -/
structure SignInResponse where
  token : String
deriving Repr, DecidableEq

/-- The domain error values (`domain.Err...`) the two services return;
infrastructure errors wrapped with `fmt.Errorf("... %w", err)` become
`wrapped msg`. -/
inductive DomainErr where
  | userNotFoundInContext
  | indicativeRatingNotFound
  | moviesNotFound
  | movieNotBelongUser
  | moviesNotFoundByUserID
  | getUserByEmail
  | emailAlreadyRegister
  | hashingPassword
  | createUser
  | userNotFound
  | invalidPassword
  | createSession
  | wrapped (msg : String)
deriving Repr, DecidableEq

/-- One repository / remote-store call made by a service operation, recorded
in the order the Go code performs them. -/
inductive Effect where
  | getIndicativeRatingByID (id : Nat)
  | createMovie (m : Movie)
  | addUploadTask (t : MovieImageUploadTask)
  | getAllMoviesByUserID (userID : Nat)
  | getMovieByID (id : Nat)
  | updateMovie (m : Movie)
  | addDeleteTask (t : MovieImageDeleteTask)
  | uploadRemoteImage (image : List Nat) (filename : String)
  | createMovieImage (img : MovieImage)
  | deleteRemoteImage (cloudFlareID : String)
  | deleteMovieImage (cloudFlareID : String)
  | getUserByEmail (email : String)
  | createUser (u : User)
  | createSession (u : User)
deriving Repr, DecidableEq

/-- `domain.Pagination`: limit/page/sort plus the repository-computed totals
and the result rows (`Rows any` in Go, instantiated per layer). -/
structure Pagination (α : Type) where
  limit : Int
  page : Int
  sort : String
  totalRows : Int
  totalPages : Int
  rows : List α
deriving Repr, DecidableEq

/-- `domain.IndicativeRatingResponse`. -/
structure IndicativeRatingResponse where
  id : Nat
  description : String
  imageURL : String
deriving Repr, DecidableEq

/-- `domain.MovieImageResponse`. -/
structure MovieImageResponse where
  id : Nat
  imageURL : String
deriving Repr, DecidableEq

/-- `domain.MovieResponse`. -/
structure MovieResponse where
  id : Nat
  title : String
  duration : Int
  indicativeRating : Option IndicativeRatingResponse
  movieImages : List MovieImageResponse
deriving Repr, DecidableEq

/-- `IndicativeRating.ToIndicativeRatingResponse`. -/
def IndicativeRating.toIndicativeRatingResponse (i : IndicativeRating) :
    IndicativeRatingResponse :=
  { id := i.id, description := i.description, imageURL := i.imageURL }

/-- `MovieImage.ToMovieImageResponse`. -/
def MovieImage.toMovieImageResponse (m : MovieImage) : MovieImageResponse :=
  { id := m.id, imageURL := m.imageURL }

/-- `Movie.ToMovieResponse`: copies the scalar fields and converts the
embedded rating and images. -/
def Movie.toMovieResponse (m : Movie) : MovieResponse :=
  { id := m.id, title := m.title, duration := m.duration,
    indicativeRating := some m.indicativeRating.toIndicativeRatingResponse,
    movieImages := m.images.map MovieImage.toMovieImageResponse }

/-- `MoviePayload.ToMovie`: builds the new `Movie` row from the payload; the
fresh `uuid.New()` and `time.Now().UTC()` are the `newID` / `now`
parameters; `IndicativeRating` and `Images` stay at their Go zero values. -/
def MoviePayload.toMovie (payload : MoviePayload) (userID newID now : Nat) : Movie :=
  { id := newID, indicativeRatingID := payload.indicativeRatingID,
    userID := userID, title := payload.title, duration := payload.duration,
    indicativeRating := IndicativeRating.zero, createdAt := now, images := [] }

/-- The movie service's collaborators (`domain.MovieRepository` and
`client.CloudFlareService`): each fallible Go call is an oracle. -/
structure MovieEnv where
  getIndicativeRatingByID : Nat → Except String (Option IndicativeRating)
  createMovie : Movie → Except String Unit
  convertImageToBytes : Nat → Except String (List Nat)
  addUploadTaskToQueue : MovieImageUploadTask → Except String Unit
  getAllByUserID : Nat → Pagination Movie → Except String (Option (Pagination Movie))
  getMovieByID : Nat → Except String (Option Movie)
  updateMovie : Movie → Except String Unit
  addDeleteTaskToQueue : MovieImageDeleteTask → Except String Unit
  uploadImage : List Nat → String → Except String CloudFlareUploadResponse
  createMovieImage : MovieImage → Except String Unit
  deleteImage : String → Except String Unit
  deleteMovieImage : String → Except String Unit

/-- `fmt.Sprintf("movie_%s_image_%d.jpg", task.MovieID.String(), time.Now().Unix())`
in `ProcessUploadQueue`. -/
def uploadFilename (task : MovieImageUploadTask) (now : Nat) : String :=
  "movie_" ++ toString task.movieID ++ "_image_" ++ toString now ++ ".jpg"

/-- `movieService.ProcessUploadQueue`: upload the task's bytes to the remote
store; on success persist a `MovieImage` row linking the movie to the
returned URL/identifier. Returns (error status, database rows after the
call, effect trace). Row persistence (`CreateMovieImage` appends the row on
success) is modelled from the spec: the movie repository implementation is
not among the shown files. -/
def processUploadQueue (env : MovieEnv) (newImageID now : Nat)
    (db : List MovieImage) (task : MovieImageUploadTask) :
    Except DomainErr Unit × List MovieImage × List Effect :=
  let filename := uploadFilename task now
  match env.uploadImage task.image filename with
  | .error e =>
      (.error (.wrapped ("error to upload image to Cloudflare " ++ e)), db,
        [.uploadRemoteImage task.image filename])
  | .ok response =>
      let movieImage : MovieImage :=
        { id := newImageID, movieID := task.movieID,
          imageURL := response.URL, cloudFlareID := response.ID }
      match env.createMovieImage movieImage with
      | .error e =>
          (.error (.wrapped ("error to save movie image to the database error:" ++ e)),
            db,
            [.uploadRemoteImage task.image filename, .createMovieImage movieImage])
      | .ok _ =>
          (.ok (), db ++ [movieImage],
            [.uploadRemoteImage task.image filename, .createMovieImage movieImage])

/-- `movieService.ProcessDeleteQueue`: delete the remote object by its
identifier, then delete the matching `MovieImage` row. Returns (error
status, database rows after the call, effect trace). Row deletion
(`DeleteMovieImage` removes the rows with that `CloudFlareID` on success)
is modelled from the spec: the movie repository implementation is not among
the shown files. -/
def processDeleteQueue (env : MovieEnv) (db : List MovieImage)
    (task : MovieImageDeleteTask) :
    Except DomainErr Unit × List MovieImage × List Effect :=
  match env.deleteImage task.cloudFlareID with
  | .error e =>
      (.error (.wrapped ("error to delete image to Cloudflare " ++ e)), db,
        [.deleteRemoteImage task.cloudFlareID])
  | .ok _ =>
      match env.deleteMovieImage task.cloudFlareID with
      | .error e =>
          (.error (.wrapped ("error to delete movie image to the database error:" ++ e)),
            db,
            [.deleteRemoteImage task.cloudFlareID, .deleteMovieImage task.cloudFlareID])
      | .ok _ =>
          (.ok (), db.filter (fun img => img.cloudFlareID ≠ task.cloudFlareID),
            [.deleteRemoteImage task.cloudFlareID, .deleteMovieImage task.cloudFlareID])

/-- The per-image loop of `movieService.Create`: convert the image to bytes
(on failure, log and `continue`), build the upload task, push it onto the
queue (a push failure is logged only). Returns (effect trace of attempted
pushes, tasks successfully enqueued), in source order. -/
def uploadLoop (env : MovieEnv) (movieID userID : Nat) :
    List Nat → List Effect × List MovieImageUploadTask
  | [] => ([], [])
  | image :: rest =>
    match env.convertImageToBytes image with
    | .error _ => uploadLoop env movieID userID rest
    | .ok imageBytes =>
      let task : MovieImageUploadTask :=
        { movieID := movieID, image := imageBytes, userID := userID }
      let r := uploadLoop env movieID userID rest
      match env.addUploadTaskToQueue task with
      | .error _ => (.addUploadTask task :: r.1, r.2)
      | .ok _ => (.addUploadTask task :: r.1, task :: r.2)

/-- `movieService.Create`: session check, indicative-rating lookup, movie row
creation, then the per-image enqueue loop; finally the response carries the
looked-up rating. Returns (result, effect trace, tasks successfully
enqueued). -/
def movieCreate (env : MovieEnv) (ctxSession : Option Session)
    (newMovieID now : Nat) (payload : MoviePayload) :
    Except DomainErr MovieResponse × List Effect × List MovieImageUploadTask :=
  match ctxSession with
  | none => (.error .userNotFoundInContext, [], [])
  | some session =>
    match env.getIndicativeRatingByID payload.indicativeRatingID with
    | .error e =>
        (.error (.wrapped ("error to get indicative rating by id " ++ e)),
          [.getIndicativeRatingByID payload.indicativeRatingID], [])
    | .ok none =>
        (.error .indicativeRatingNotFound,
          [.getIndicativeRatingByID payload.indicativeRatingID], [])
    | .ok (some indicativeRating) =>
        let movie := payload.toMovie session.userID newMovieID now
        match env.createMovie movie with
        | .error e =>
            (.error (.wrapped ("error to create movie " ++ e)),
              [.getIndicativeRatingByID payload.indicativeRatingID,
                .createMovie movie], [])
        | .ok _ =>
            let r := uploadLoop env movie.id session.userID payload.images
            let movieResponse :=
              { movie.toMovieResponse with
                  indicativeRating :=
                    some indicativeRating.toIndicativeRatingResponse }
            (.ok movieResponse,
              .getIndicativeRatingByID payload.indicativeRatingID
                :: .createMovie movie :: r.1,
              r.2)

/-- `movieService.GetAllByUserID`: session check, paginated repository read,
row conversion to responses. -/
def movieGetAllByUserID (env : MovieEnv) (ctxSession : Option Session)
    (pagination : Pagination Movie) :
    Except DomainErr (Pagination MovieResponse) × List Effect :=
  match ctxSession with
  | none => (.error .userNotFoundInContext, [])
  | some session =>
    match env.getAllByUserID session.userID pagination with
    | .error e =>
        (.error (.wrapped ("error to get all movies by user id. error: " ++ e)),
          [.getAllMoviesByUserID session.userID])
    | .ok none =>
        (.error .moviesNotFoundByUserID, [.getAllMoviesByUserID session.userID])
    | .ok (some moviesPagination) =>
        (.ok { limit := moviesPagination.limit, page := moviesPagination.page,
               sort := moviesPagination.sort,
               totalRows := moviesPagination.totalRows,
               totalPages := moviesPagination.totalPages,
               rows := moviesPagination.rows.map Movie.toMovieResponse },
          [.getAllMoviesByUserID session.userID])

/-- The field assignments of `movieService.Update` guarded by
`payload.Title != nil` and `payload.Duration != nil`. -/
def applyTitleDuration (movie : Movie) (payload : MovieUpdatePayload) : Movie :=
  let m1 := match payload.title with
    | some t => { movie with title := t }
    | none => movie
  match payload.duration with
  | some d => { m1 with duration := d }
  | none => m1

/-- The tail of `movieService.Update`: the repository `Update` call and the
response conversion; `tr` is the trace accumulated so far. -/
def movieUpdateFinish (env : MovieEnv) (movie : Movie) (tr : List Effect) :
    Except DomainErr MovieResponse × List Effect :=
  match env.updateMovie movie with
  | .error e =>
      (.error (.wrapped ("error to update movie: " ++ e)),
        tr ++ [.updateMovie movie])
  | .ok _ => (.ok movie.toMovieResponse, tr ++ [.updateMovie movie])

/-- `movieService.Update`: session check, load the movie, ownership check,
optional rating lookup, then overwrite exactly the fields whose payload
pointer is non-nil and call the repository `Update` with the result. -/
def movieUpdate (env : MovieEnv) (ctxSession : Option Session) (ID : Nat)
    (payload : MovieUpdatePayload) :
    Except DomainErr MovieResponse × List Effect :=
  match ctxSession with
  | none => (.error .userNotFoundInContext, [])
  | some session =>
    match env.getMovieByID ID with
    | .error e =>
        (.error (.wrapped ("error to get movie by id: " ++ e)), [.getMovieByID ID])
    | .ok none => (.error .moviesNotFound, [.getMovieByID ID])
    | .ok (some movie) =>
      if movie.userID = session.userID then
        match payload.indicativeRatingID with
        | some irID =>
          match env.getIndicativeRatingByID irID with
          | .error e =>
              (.error (.wrapped ("error to get indicative rating: " ++ e)),
                [.getMovieByID ID, .getIndicativeRatingByID irID])
          | .ok none =>
              (.error .indicativeRatingNotFound,
                [.getMovieByID ID, .getIndicativeRatingByID irID])
          | .ok (some indicativeRating) =>
              movieUpdateFinish env
                (applyTitleDuration
                  { movie with indicativeRating := indicativeRating } payload)
                [.getMovieByID ID, .getIndicativeRatingByID irID]
        | none =>
            movieUpdateFinish env (applyTitleDuration movie payload)
              [.getMovieByID ID]
      else (.error .movieNotBelongUser, [.getMovieByID ID])

/-- The per-image loop of `movieService.Delete`: build one delete task per
image (carrying the remote identifier only) and push it; a push failure is
logged only. Returns (effect trace, tasks successfully enqueued). -/
def deleteLoop (env : MovieEnv) :
    List MovieImage → List Effect × List MovieImageDeleteTask
  | [] => ([], [])
  | image :: rest =>
    let task : MovieImageDeleteTask := { cloudFlareID := image.cloudFlareID }
    let r := deleteLoop env rest
    match env.addDeleteTaskToQueue task with
    | .error _ => (.addDeleteTask task :: r.1, r.2)
    | .ok _ => (.addDeleteTask task :: r.1, task :: r.2)

/-- `movieService.Delete`: session check, load the movie, ownership check,
then enqueue one delete task per image. Returns (result, effect trace,
tasks successfully enqueued). -/
def movieDelete (env : MovieEnv) (ctxSession : Option Session) (ID : Nat) :
    Except DomainErr Unit × List Effect × List MovieImageDeleteTask :=
  match ctxSession with
  | none => (.error .userNotFoundInContext, [], [])
  | some session =>
    match env.getMovieByID ID with
    | .error e =>
        (.error (.wrapped ("error to get movies by id error:" ++ e)),
          [.getMovieByID ID], [])
    | .ok none => (.error .moviesNotFound, [.getMovieByID ID], [])
    | .ok (some movie) =>
      if movie.userID = session.userID then
        let r := deleteLoop env movie.images
        (.ok (), .getMovieByID ID :: r.1, r.2)
      else (.error .movieNotBelongUser, [.getMovieByID ID], [])

/-- The worker loop that drains the upload queue: process the enqueued tasks
in order, threading the database rows through `processUploadQueue`; each
processed task receives the next fresh image id. -/
def drainUploadQueue (env : MovieEnv) (now : Nat) :
    Nat → List MovieImage → List MovieImageUploadTask → List MovieImage
  | _, db, [] => db
  | nextID, db, task :: rest =>
      drainUploadQueue env now (nextID + 1)
        (processUploadQueue env nextID now db task).2.1 rest

/-- The user service's collaborators (`domain.UserRepository`, the `secure`
hashing wrapper and `domain.SessionService`): each fallible Go call is an
oracle; `checkPassword hash password` is `true` when
`secure.CheckPassword` returns no error. -/
structure UserEnv where
  getByEmail : String → Except String (Option User)
  hashPassword : String → Except String String
  createUser : User → Except String Unit
  checkPassword : String → String → Bool
  sessionCreate : User → Except String String

/-- Modelled from the spec: `UserPayload.ToUser` is not among the shown
files; per the data model ("User: identity + credential hash") it builds
the `User` row from the payload's fields, the computed hash and a fresh id. -/
def UserPayload.toUser (payload : UserPayload) (newID : Nat) (hash : String) :
    User :=
  { id := newID, firstName := payload.firstName, lastName := payload.lastName,
    email := payload.email, passwordHash := hash }

/-- `userService.Create`: look the email up; an existing user is a conflict;
otherwise hash the password, build the user and write it. Returns (result,
effect trace). -/
def userCreate (env : UserEnv) (newID : Nat) (payload : UserPayload) :
    Except DomainErr Unit × List Effect :=
  match env.getByEmail payload.email with
  | .error _ => (.error .getUserByEmail, [.getUserByEmail payload.email])
  | .ok (some _) =>
      (.error .emailAlreadyRegister, [.getUserByEmail payload.email])
  | .ok none =>
    match env.hashPassword payload.password with
    | .error _ => (.error .hashingPassword, [.getUserByEmail payload.email])
    | .ok passwordHash =>
      let user := payload.toUser newID passwordHash
      match env.createUser user with
      | .error _ =>
          (.error .createUser, [.getUserByEmail payload.email, .createUser user])
      | .ok _ => (.ok (), [.getUserByEmail payload.email, .createUser user])

/-- `userService.SignIn`: look the email up (`nil` → not found), check the
password against the stored hash (mismatch → invalid password), then create
the session and return its token. Returns (result, effect trace). -/
def signIn (env : UserEnv) (payload : SignInPayload) :
    Except DomainErr SignInResponse × List Effect :=
  match env.getByEmail payload.email with
  | .error _ => (.error .getUserByEmail, [.getUserByEmail payload.email])
  | .ok none => (.error .userNotFound, [.getUserByEmail payload.email])
  | .ok (some user) =>
    if env.checkPassword user.passwordHash payload.password then
      match env.sessionCreate user with
      | .error _ =>
          (.error .createSession,
            [.getUserByEmail payload.email, .createSession user])
      | .ok token =>
          (.ok { token := token },
            [.getUserByEmail payload.email, .createSession user])
    else (.error .invalidPassword, [.getUserByEmail payload.email])

/-- C9: every session-requiring movie-service operation (Create,
GetAllByUserID, Update, Delete) on a context without a session value
returns `ErrUserNotFoundInContext` before performing any repository read,
write or enqueue: the result is the error, the effect trace is empty and no
task is enqueued. -/
theorem session_missing_no_effects (env : MovieEnv) (newMovieID now ID : Nat)
    (payload : MoviePayload) (upd : MovieUpdatePayload)
    (pagination : Pagination Movie) :
    movieCreate env none newMovieID now payload =
      (.error .userNotFoundInContext, [], []) ∧
    movieGetAllByUserID env none pagination =
      (.error .userNotFoundInContext, []) ∧
    movieUpdate env none ID upd = (.error .userNotFoundInContext, []) ∧
    movieDelete env none ID = (.error .userNotFoundInContext, [], []) := by
  refine ⟨rfl, rfl, rfl, rfl⟩

/-- C1: in `ProcessUploadQueue`, `CreateMovieImage` is called if and only if
the remote-store upload returned a URL and identifier without error; when
the upload fails, the database rows are unchanged and the error is
returned, and the rows can change only after a successful upload. -/
theorem processUploadQueue_persist_iff_upload_ok (env : MovieEnv)
    (newImageID now : Nat) (db : List MovieImage)
    (task : MovieImageUploadTask) :
    ((∃ img, Effect.createMovieImage img ∈
        (processUploadQueue env newImageID now db task).2.2) ↔
      (∃ resp, env.uploadImage task.image (uploadFilename task now) = .ok resp)) ∧
    (∀ e, env.uploadImage task.image (uploadFilename task now) = .error e →
      (processUploadQueue env newImageID now db task).2.1 = db ∧
      (processUploadQueue env newImageID now db task).1 =
        .error (.wrapped ("error to upload image to Cloudflare " ++ e))) ∧
    ((processUploadQueue env newImageID now db task).2.1 ≠ db →
      ∃ resp, env.uploadImage task.image (uploadFilename task now) = .ok resp) := by
  rcases h : env.uploadImage task.image (uploadFilename task now) with e | resp
  · refine ⟨?_, ?_, ?_⟩ <;> simp [processUploadQueue, h]
  · rcases hc : env.createMovieImage
        { id := newImageID, movieID := task.movieID,
          imageURL := resp.URL, cloudFlareID := resp.ID } with e2 | u
    · refine ⟨?_, ?_, ?_⟩ <;> simp [processUploadQueue, h, hc]
    · refine ⟨?_, ?_, ?_⟩ <;> simp [processUploadQueue, h, hc]

/-- C8: in `ProcessDeleteQueue`, the remote object is deleted first and only
then the matching `MovieImage` row: when the remote delete fails the error
is returned, the rows are unchanged and no database delete is attempted;
when it succeeds the trace is exactly remote-delete followed by
database-delete, a database-delete failure is returned with the rows
unchanged, and on success the matching rows are removed. -/
theorem processDeleteQueue_remote_then_db (env : MovieEnv)
    (db : List MovieImage) (task : MovieImageDeleteTask) :
    (∀ e, env.deleteImage task.cloudFlareID = .error e →
      (processDeleteQueue env db task).1 =
        .error (.wrapped ("error to delete image to Cloudflare " ++ e)) ∧
      (processDeleteQueue env db task).2.1 = db ∧
      ∀ c, Effect.deleteMovieImage c ∉ (processDeleteQueue env db task).2.2) ∧
    (∀ u, env.deleteImage task.cloudFlareID = .ok u →
      (processDeleteQueue env db task).2.2 =
        [.deleteRemoteImage task.cloudFlareID,
          .deleteMovieImage task.cloudFlareID] ∧
      (∀ e, env.deleteMovieImage task.cloudFlareID = .error e →
        (processDeleteQueue env db task).1 =
          .error (.wrapped
            ("error to delete movie image to the database error:" ++ e)) ∧
        (processDeleteQueue env db task).2.1 = db) ∧
      (∀ u2, env.deleteMovieImage task.cloudFlareID = .ok u2 →
        (processDeleteQueue env db task).1 = .ok () ∧
        (processDeleteQueue env db task).2.1 =
          db.filter (fun img => img.cloudFlareID ≠ task.cloudFlareID))) := by
  rcases h : env.deleteImage task.cloudFlareID with e | u
  · refine ⟨?_, ?_⟩ <;> simp [processDeleteQueue, h]
  · rcases hd : env.deleteMovieImage task.cloudFlareID with e2 | u2
    · refine ⟨?_, ?_⟩ <;> simp [processDeleteQueue, h, hd]
    · refine ⟨?_, ?_⟩ <;> simp [processDeleteQueue, h, hd]

/-- C4: when the payload's indicative-rating id matches no rating, the movie
service's Create returns `ErrIndicativeRatingNotFound`, the only repository
call is the rating lookup, no task is enqueued, and in particular the
repository `Create` for the movie row is never invoked. -/
theorem movieCreate_unknown_rating_no_write (env : MovieEnv)
    (session : Session) (newMovieID now : Nat) (payload : MoviePayload)
    (h : env.getIndicativeRatingByID payload.indicativeRatingID = .ok none) :
    movieCreate env (some session) newMovieID now payload =
      (.error .indicativeRatingNotFound,
        [.getIndicativeRatingByID payload.indicativeRatingID], []) ∧
    ∀ m, Effect.createMovie m ∉
      (movieCreate env (some session) newMovieID now payload).2.1 := by
  refine ⟨?_, ?_⟩ <;> simp [movieCreate, h]

/-- C5: the movie service's Delete on a movie whose owner differs from the
session's user returns `ErrMovieNotBelongUser` and enqueues no delete task
(the only repository call is the movie lookup); delete tasks can be
produced only when the requester owns the movie. -/
theorem movieDelete_not_owner_no_tasks (env : MovieEnv) (session : Session)
    (ID : Nat) (movie : Movie)
    (hget : env.getMovieByID ID = .ok (some movie)) :
    (movie.userID ≠ session.userID →
      movieDelete env (some session) ID =
        (.error .movieNotBelongUser, [.getMovieByID ID], [])) ∧
    ((movieDelete env (some session) ID).2.2 ≠ [] →
      movie.userID = session.userID) := by
  by_cases hown : movie.userID = session.userID
  · refine ⟨fun hne => absurd hown hne, fun _ => hown⟩
  · refine ⟨?_, ?_⟩ <;> simp [movieDelete, hget, hown]

/-- C6: the user service's Create on a payload whose email already belongs
to an existing user returns `ErrEmailAlreadyRegister` and performs no
database write: the only effect is the email lookup, and the repository
`Create` is never invoked. -/
theorem userCreate_email_conflict_no_write (env : UserEnv) (newID : Nat)
    (payload : UserPayload) (u : User)
    (h : env.getByEmail payload.email = .ok (some u)) :
    userCreate env newID payload =
      (.error .emailAlreadyRegister, [.getUserByEmail payload.email]) ∧
    ∀ u2, Effect.createUser u2 ∉ (userCreate env newID payload).2 := by
  refine ⟨?_, ?_⟩ <;> simp [userCreate, h]

/-- C7: SignIn with a known email but a password that does not match the
stored hash returns `ErrInvalidPassword` with no session created (the only
effect is the email lookup); with an unknown email it returns
`ErrUserNotFound` with no session created; and a token is returned only
when the email matched a user and the password check passed. -/
theorem signIn_rejects_bad_credentials (env : UserEnv)
    (payload : SignInPayload) :
    (∀ user, env.getByEmail payload.email = .ok (some user) →
      env.checkPassword user.passwordHash payload.password = false →
      signIn env payload =
        (.error .invalidPassword, [.getUserByEmail payload.email])) ∧
    (env.getByEmail payload.email = .ok none →
      signIn env payload =
        (.error .userNotFound, [.getUserByEmail payload.email])) ∧
    (∀ resp, (signIn env payload).1 = .ok resp →
      ∃ user, env.getByEmail payload.email = .ok (some user) ∧
        env.checkPassword user.passwordHash payload.password = true) := by
  refine ⟨?_, ?_, ?_⟩
  · intro user hu hpw
    simp [signIn, hu, hpw]
  · intro hnone
    simp [signIn, hnone]
  · intro resp hok
    rcases h : env.getByEmail payload.email with e | mu
    · simp [signIn, h] at hok
    · rcases mu with _ | user
      · simp [signIn, h] at hok
      · refine ⟨user, rfl, ?_⟩
        by_cases hpw : env.checkPassword user.passwordHash payload.password
        · exact hpw
        · simp [signIn, h, hpw] at hok

/-- The tasks successfully enqueued by the upload loop of Create: exactly
one task per image whose byte conversion and queue push both succeed, in
order; failed images are skipped without affecting the rest. -/
theorem uploadLoop_queue_eq (env : MovieEnv) (movieID userID : Nat)
    (images : List Nat) :
    (uploadLoop env movieID userID images).2 =
      images.filterMap (fun image =>
        match env.convertImageToBytes image with
        | .error _ => none
        | .ok imageBytes =>
          match env.addUploadTaskToQueue
              { movieID := movieID, image := imageBytes, userID := userID } with
          | .error _ => none
          | .ok _ =>
              some { movieID := movieID, image := imageBytes,
                     userID := userID }) := by
  induction images with
  | nil => rfl
  | cons image rest ih =>
    rcases hc : env.convertImageToBytes image with e | imageBytes
    · simp [uploadLoop, hc, ih]
    · rcases hq : env.addUploadTaskToQueue
          { movieID := movieID, image := imageBytes, userID := userID }
        with e | u
      · simp [uploadLoop, hc, hq, ih]
      · simp [uploadLoop, hc, hq, ih]

/-- C2: once the rating lookup and the movie-row creation succeed, Create
succeeds regardless of per-image failures, and the upload tasks enqueued
are exactly one per image whose conversion and push both succeed — in
particular at most one task per supplied image. -/
theorem movieCreate_tasks_per_image (env : MovieEnv) (session : Session)
    (newMovieID now : Nat) (payload : MoviePayload)
    (rating : IndicativeRating)
    (hir : env.getIndicativeRatingByID payload.indicativeRatingID =
      .ok (some rating))
    (hcm : env.createMovie (payload.toMovie session.userID newMovieID now) =
      .ok ()) :
    (∀ e,
      (movieCreate env (some session) newMovieID now payload).1 ≠ .error e) ∧
    (movieCreate env (some session) newMovieID now payload).2.2.length ≤
      payload.images.length ∧
    (movieCreate env (some session) newMovieID now payload).2.2 =
      payload.images.filterMap (fun image =>
        match env.convertImageToBytes image with
        | .error _ => none
        | .ok imageBytes =>
          match env.addUploadTaskToQueue
              { movieID := newMovieID, image := imageBytes,
                userID := session.userID } with
          | .error _ => none
          | .ok _ =>
              some { movieID := newMovieID, image := imageBytes,
                     userID := session.userID }) := by
  have hqueue := uploadLoop_queue_eq env newMovieID session.userID
    payload.images
  have hcm2 : env.createMovie
      { id := newMovieID, indicativeRatingID := payload.indicativeRatingID,
        userID := session.userID, title := payload.title,
        duration := payload.duration,
        indicativeRating := IndicativeRating.zero, createdAt := now,
        images := [] } = .ok () := hcm
  have hq2 : (movieCreate env (some session) newMovieID now payload).2.2 =
      (uploadLoop env newMovieID session.userID payload.images).2 := by
    simp [movieCreate, hir, hcm2, MoviePayload.toMovie]
  refine ⟨?_, ?_, ?_⟩
  · intro e
    simp [movieCreate, hir, hcm2, MoviePayload.toMovie]
  · rw [hq2, hqueue]
    exact List.length_filterMap_le _ _
  · rw [hq2, hqueue]

/-- C10: an owner's Update passes to the repository a movie that differs
from the loaded one only in the fields whose payload pointer is non-nil:
Title, Duration and the embedded IndicativeRating; ID, UserID, CreatedAt,
Images and IndicativeRatingID are unchanged, and a nil pointer leaves its
field at the prior value. -/
theorem movieUpdate_frame (env : MovieEnv) (session : Session) (ID : Nat)
    (payload : MovieUpdatePayload) (movie : Movie)
    (hget : env.getMovieByID ID = .ok (some movie))
    (hown : movie.userID = session.userID) :
    ∀ m, Effect.updateMovie m ∈ (movieUpdate env (some session) ID payload).2 →
      m.id = movie.id ∧ m.userID = movie.userID ∧
      m.createdAt = movie.createdAt ∧ m.images = movie.images ∧
      m.indicativeRatingID = movie.indicativeRatingID ∧
      (payload.title = none → m.title = movie.title) ∧
      (∀ t, payload.title = some t → m.title = t) ∧
      (payload.duration = none → m.duration = movie.duration) ∧
      (∀ d, payload.duration = some d → m.duration = d) ∧
      (payload.indicativeRatingID = none →
        m.indicativeRating = movie.indicativeRating) ∧
      (∀ irID rating, payload.indicativeRatingID = some irID →
        env.getIndicativeRatingByID irID = .ok (some rating) →
        m.indicativeRating = rating) := by
  obtain ⟨uid⟩ := session
  have huid : movie.userID = uid := hown
  subst huid
  intro m hm
  rcases hpi : payload.indicativeRatingID with _ | irID
  · rcases hu : env.updateMovie (applyTitleDuration movie payload) with e | u <;>
      simp [movieUpdate, hget, hpi, movieUpdateFinish, hu] at hm <;>
      · subst hm
        rcases hpt : payload.title with _ | t <;>
          rcases hpd : payload.duration with _ | d <;>
            simp [applyTitleDuration, hpt, hpd, hpi]
  · rcases hir : env.getIndicativeRatingByID irID with e | orat
    · simp [movieUpdate, hget, hpi, hir] at hm
    · rcases orat with _ | rating
      · simp [movieUpdate, hget, hpi, hir] at hm
      · rcases hu : env.updateMovie
            (applyTitleDuration
              { movie with indicativeRating := rating } payload)
          with e | u <;>
          simp [movieUpdate, hget, hpi, hir, movieUpdateFinish,
            hu] at hm <;>
          · subst hm
            rcases hpt : payload.title with _ | t <;>
              rcases hpd : payload.duration with _ | d <;>
              · simp [applyTitleDuration, hpt, hpd, hpi, hir]
                intro irID2 rating2 heq hlook
                subst heq
                simpa using hir.symm.trans hlook

/-- C3: end-to-end: a valid payload with 2 images created by an
authenticated user, followed by the consumer draining the queue against a
remote store that succeeds on every upload, leaves exactly 2 `MovieImage`
rows for that movie, each row's URL and identifier being the ones the
remote store returned for its upload. -/
theorem endToEnd_two_images (env : MovieEnv) (session : Session)
    (newMovieID now startID i1 i2 irID : Nat) (title : String)
    (duration : Int) (rating : IndicativeRating) (conv : Nat → List Nat)
    (store : List Nat → String → CloudFlareUploadResponse)
    (hir : env.getIndicativeRatingByID irID = .ok (some rating))
    (hcm : ∀ m, env.createMovie m = .ok ())
    (hconv : ∀ image, env.convertImageToBytes image = .ok (conv image))
    (hq : ∀ t, env.addUploadTaskToQueue t = .ok ())
    (hup : ∀ b fn, env.uploadImage b fn = .ok (store b fn))
    (hci : ∀ img, env.createMovieImage img = .ok ()) :
    drainUploadQueue env now startID []
        (movieCreate env (some session) newMovieID now
          { images := [i1, i2], indicativeRatingID := irID,
            title := title, duration := duration }).2.2 =
      [ { id := startID, movieID := newMovieID,
          imageURL := (store (conv i1)
            (uploadFilename
              { movieID := newMovieID, image := conv i1,
                userID := session.userID } now)).URL,
          cloudFlareID := (store (conv i1)
            (uploadFilename
              { movieID := newMovieID, image := conv i1,
                userID := session.userID } now)).ID },
        { id := startID + 1, movieID := newMovieID,
          imageURL := (store (conv i2)
            (uploadFilename
              { movieID := newMovieID, image := conv i2,
                userID := session.userID } now)).URL,
          cloudFlareID := (store (conv i2)
            (uploadFilename
              { movieID := newMovieID, image := conv i2,
                userID := session.userID } now)).ID } ] ∧
    ((drainUploadQueue env now startID []
        (movieCreate env (some session) newMovieID now
          { images := [i1, i2], indicativeRatingID := irID,
            title := title, duration := duration }).2.2).filter
      (fun row => row.movieID == newMovieID)).length = 2 := by
  have hq2 : (movieCreate env (some session) newMovieID now
      { images := [i1, i2], indicativeRatingID := irID,
        title := title, duration := duration }).2.2 =
      [ { movieID := newMovieID, image := conv i1,
          userID := session.userID },
        { movieID := newMovieID, image := conv i2,
          userID := session.userID } ] := by
    simp [movieCreate, MoviePayload.toMovie, hir, hcm, uploadLoop, hconv, hq]
  rw [hq2]
  refine ⟨?_, ?_⟩ <;>
    simp [drainUploadQueue, processUploadQueue, hup, hci]

/-- A concrete indicative rating for witnesses. -/
def demoRating : IndicativeRating :=
  { id := 7, description := "PG", imageURL := "img-pg" }

/-- A concrete deterministic remote store for witnesses: URL from the
filename, identifier from the payload length. -/
def demoStore : List Nat → String → CloudFlareUploadResponse :=
  fun b fn =>
    { URL := "https://cdn.example/" ++ fn, ID := "cf" ++ toString b.length }

/-- A concrete oracle environment in which every external call succeeds. -/
def demoEnv : MovieEnv where
  getIndicativeRatingByID := fun _ => .ok (some demoRating)
  createMovie := fun _ => .ok ()
  convertImageToBytes := fun image => .ok [image]
  addUploadTaskToQueue := fun _ => .ok ()
  getAllByUserID := fun _ p => .ok (some p)
  getMovieByID := fun _ => .ok none
  updateMovie := fun _ => .ok ()
  addDeleteTaskToQueue := fun _ => .ok ()
  uploadImage := fun b fn => .ok (demoStore b fn)
  createMovieImage := fun _ => .ok ()
  deleteImage := fun _ => .ok ()
  deleteMovieImage := fun _ => .ok ()

/-- A concrete persisted image row for witnesses. -/
def demoImage : MovieImage :=
  { id := 21, movieID := 9, imageURL := "u21", cloudFlareID := "cf21" }

/-- A concrete stored movie, owned by user 2, with one image. -/
def demoMovie : Movie :=
  { id := 9, indicativeRatingID := 7, userID := 2, title := "Old",
    duration := 100, indicativeRating := demoRating, createdAt := 50,
    images := [demoImage] }

/-- `demoEnv` with the movie lookup returning `demoMovie`. -/
def demoEnvMovie : MovieEnv :=
  { demoEnv with getMovieByID := fun _ => .ok (some demoMovie) }

/-- `demoEnv` with the indicative-rating lookup finding nothing. -/
def demoEnvNoRating : MovieEnv :=
  { demoEnv with getIndicativeRatingByID := fun _ => .ok none }

/-- A concrete stored user for witnesses. -/
def demoUser : User :=
  { id := 4, firstName := "Ana", lastName := "Lima", email := "a@b.c",
    passwordHash := "hash-pw" }

/-- A concrete user-service environment: the email lookup finds `demoUser`
and the password check compares against a deterministic hash. -/
def demoUserEnv : UserEnv where
  getByEmail := fun _ => .ok (some demoUser)
  hashPassword := fun p => .ok ("hash-" ++ p)
  createUser := fun _ => .ok ()
  checkPassword := fun hash pwd => hash == ("hash-" ++ pwd)
  sessionCreate := fun u => .ok ("token-" ++ u.email)

/-- Witness for C2 at a concrete input: with the rating lookup and movie
creation succeeding, a 2-image payload enqueues at most 2 tasks. -/
theorem movieCreate_tasks_per_image_witness :
    demoEnv.getIndicativeRatingByID
      (MoviePayload.mk [2, 3] 7 "T" 90).indicativeRatingID =
      .ok (some demoRating) ∧
    demoEnv.createMovie
      ((MoviePayload.mk [2, 3] 7 "T" 90).toMovie 1 10 5) = .ok () ∧
    (movieCreate demoEnv (some (Session.mk 1)) 10 5
        (MoviePayload.mk [2, 3] 7 "T" 90)).2.2.length ≤
      (MoviePayload.mk [2, 3] 7 "T" 90).images.length :=
  ⟨rfl, rfl,
    (movieCreate_tasks_per_image demoEnv (Session.mk 1) 10 5
      (MoviePayload.mk [2, 3] 7 "T" 90) demoRating rfl rfl).2.1⟩

/-- Witness for C3 at a concrete input: creating a movie with images 2 and 3
and draining the queue yields exactly the two rows built from the store's
responses. -/
theorem endToEnd_two_images_witness :
    drainUploadQueue demoEnv 5 100 []
        (movieCreate demoEnv (some (Session.mk 1)) 10 5
          { images := [2, 3], indicativeRatingID := 7,
            title := "T", duration := 90 }).2.2 =
      [ { id := 100, movieID := 10,
          imageURL := (demoStore [2]
            (uploadFilename
              { movieID := 10, image := [2], userID := 1 } 5)).URL,
          cloudFlareID := (demoStore [2]
            (uploadFilename
              { movieID := 10, image := [2], userID := 1 } 5)).ID },
        { id := 101, movieID := 10,
          imageURL := (demoStore [3]
            (uploadFilename
              { movieID := 10, image := [3], userID := 1 } 5)).URL,
          cloudFlareID := (demoStore [3]
            (uploadFilename
              { movieID := 10, image := [3], userID := 1 } 5)).ID } ] ∧
    ((drainUploadQueue demoEnv 5 100 []
        (movieCreate demoEnv (some (Session.mk 1)) 10 5
          { images := [2, 3], indicativeRatingID := 7,
            title := "T", duration := 90 }).2.2).filter
      (fun row => row.movieID == 10)).length = 2 :=
  endToEnd_two_images demoEnv (Session.mk 1) 10 5 100 2 3 7 "T" 90
    demoRating (fun image => [image]) demoStore rfl (fun _ => rfl)
    (fun _ => rfl) (fun _ => rfl) (fun _ _ => rfl) (fun _ => rfl)

/-- Witness for C4 at a concrete input: an unknown rating id makes Create
fail without a movie write. -/
theorem movieCreate_unknown_rating_no_write_witness :
    demoEnvNoRating.getIndicativeRatingByID
      (MoviePayload.mk [2] 7 "T" 90).indicativeRatingID = .ok none ∧
    movieCreate demoEnvNoRating (some (Session.mk 1)) 10 5
        (MoviePayload.mk [2] 7 "T" 90) =
      (.error .indicativeRatingNotFound, [.getIndicativeRatingByID 7], []) :=
  ⟨rfl,
    (movieCreate_unknown_rating_no_write demoEnvNoRating (Session.mk 1) 10 5
      (MoviePayload.mk [2] 7 "T" 90) rfl).1⟩

/-- Witness for C5 at a concrete input: user 1 deleting user 2's movie gets
the ownership error and no delete task. -/
theorem movieDelete_not_owner_no_tasks_witness :
    demoEnvMovie.getMovieByID 9 = .ok (some demoMovie) ∧
    demoMovie.userID ≠ (Session.mk 1).userID ∧
    movieDelete demoEnvMovie (some (Session.mk 1)) 9 =
      (.error .movieNotBelongUser, [.getMovieByID 9], []) := by
  have h := movieDelete_not_owner_no_tasks demoEnvMovie (Session.mk 1) 9
    demoMovie rfl
  exact ⟨rfl, by decide, h.1 (by decide)⟩

/-- Witness for C6 at a concrete input: a registered email makes user
creation fail with the conflict error and only the read effect. -/
theorem userCreate_email_conflict_no_write_witness :
    demoUserEnv.getByEmail "a@b.c" = .ok (some demoUser) ∧
    userCreate demoUserEnv 8 (UserPayload.mk "F" "L" "a@b.c" "pw") =
      (.error .emailAlreadyRegister, [.getUserByEmail "a@b.c"]) :=
  ⟨rfl,
    (userCreate_email_conflict_no_write demoUserEnv 8
      (UserPayload.mk "F" "L" "a@b.c" "pw") demoUser rfl).1⟩

/-- Witness for C10 at a concrete input: updating only the title leaves the
movie's id (and the other untouched fields) as loaded. -/
theorem movieUpdate_frame_witness :
    demoEnvMovie.getMovieByID 9 = .ok (some demoMovie) ∧
    demoMovie.userID = (Session.mk 2).userID ∧
    ({ id := 9, indicativeRatingID := 7, userID := 2, title := "New",
       duration := 100, indicativeRating := demoRating, createdAt := 50,
       images := [demoImage] } : Movie).id = demoMovie.id := by
  have h := movieUpdate_frame demoEnvMovie (Session.mk 2) 9
    (MovieUpdatePayload.mk (some 7) (some "New") none) demoMovie rfl rfl
    { id := 9, indicativeRatingID := 7, userID := 2, title := "New",
      duration := 100, indicativeRating := demoRating, createdAt := 50,
      images := [demoImage] } (by decide)
  exact ⟨rfl, rfl, h.1⟩

end MoviePass
